import Mathlib

/-!
Verification development for the 4d-mapping regulatory analysis system.

Shallow embedding of the core algorithmic components:
  * `space_mapper.py`        — 4D coordinate mapping and nearest-neighbour search
  * `advanced_ai_engine.py`  — persona scoring, weighted consensus, validation metrics
  * `compliance_verifier.py` — direct and comprehensive compliance checks
  * `algorithm_of_thought.py` + `config/aot_config.py` — the AoT workflow state machine

Python floats are modelled as exact rationals (`ℚ`) where the code is
executable, and as reals (`ℝ`) where the mathematical property concerns
`math.sqrt`.  Python dicts are modelled as association lists that preserve
insertion order, matching CPython's ordered-dict semantics the code relies on.
-/

namespace FourD

/-! ## space_mapper.py — data model

`Coordinates4D` is the dataclass with fields x (pillar), y (level),
z (branch/subsection) and e (expertise).  The float fields are modelled
parametrically: `ℚ` for executable embeddings, `ℝ` for metric facts. -/

structure Coordinates4D (α : Type) where
  x : α
  y : α
  z : α
  e : α
deriving DecidableEq

/-- Lower-casing of one character, as Python `str.lower` acts on ASCII;
the repository's metadata keys and persona keywords are ASCII. -/
def charLower (c : Char) : Char :=
  if 'A' ≤ c ∧ c ≤ 'Z' then Char.ofNat (c.toNat + 32) else c

/-- Python `s.lower()`, modelled on the character list of the string. -/
def pyLower (s : String) : String :=
  String.mk (s.data.map charLower)

/-- The `pillar_map` lookup table of `SpaceMapper.__init__`. -/
def pillar_map : List (String × ℚ) :=
  [("security", 1), ("privacy", 2), ("compliance", 3), ("governance", 4), ("risk", 5)]

/-- The `level_map` lookup table of `SpaceMapper.__init__`. -/
def level_map : List (String × ℚ) :=
  [("basic", 1), ("intermediate", 2), ("advanced", 3), ("expert", 4)]

/-- Value of one decimal digit, `none` on a non-digit character. -/
def digitVal (c : Char) : Option ℕ :=
  if '0' ≤ c ∧ c ≤ '9' then some (c.toNat - '0'.toNat) else none

/-- Reads a run of decimal digits as a number; fails on any non-digit. -/
def digitsToNat : List Char → Option ℕ
  | [] => some 0
  | c :: cs => (digitVal c).bind fun d => (digitsToNat cs).map fun n => d * 10 ^ cs.length + n

/-- Reads unsigned plain decimal notation (`"12"`, `"1.5"`, `"1."`, `".5"`)
into integer part, fractional part and fractional length; `none` models the
`ValueError` branch of `float(s)`. -/
def parseParts (l : List Char) : Option (ℕ × ℕ × ℕ) :=
  let ip := l.takeWhile (fun c => c ≠ '.')
  let rest := l.dropWhile (fun c => c ≠ '.')
  match rest with
  | [] => if ip.isEmpty then none else (digitsToNat ip).map fun a => (a, 0, 0)
  | _ :: fp =>
    if (ip.isEmpty && fp.isEmpty) || fp.contains '.' then none
    else match digitsToNat ip, digitsToNat fp with
      | some a, some b => some (a, b, fp.length)
      | _, _ => none

/-- Strips an optional leading sign and reads the decimal parts:
sign flag, integer part, fractional part, fractional length. -/
def parseSigned (l : List Char) : Option (Bool × ℕ × ℕ × ℕ) :=
  match l with
  | '-' :: rest => (parseParts rest).map fun p => (true, p)
  | '+' :: rest => (parseParts rest).map fun p => (false, p)
  | _ => (parseParts l).map fun p => (false, p)

/-- Python `float(s)` on plain decimal notation; `none` models `ValueError`. -/
def parseDecimal (s : String) : Option ℚ :=
  (parseSigned s.data).map fun p =>
    (if p.1 then (-1 : ℚ) else 1) * ((p.2.1 : ℚ) + (p.2.2.1 : ℚ) / 10 ^ p.2.2.2)

/-- The metadata dict consumed by `SpaceMapper.map_to_coordinates`; each key
may be absent.  The source key `section` is a Lean keyword, written `«section»`. -/
structure Metadata where
  domain : Option String
  complexity : Option String
  «section» : Option String
  expertise_required : Option String
deriving DecidableEq

/-- `SpaceMapper.map_to_coordinates`: pillar from `pillar_map` (default 3.0),
level from `level_map` (default 2.0), branch from `float(section)/10` clamped
to [0, 1] (0.5 on a parse failure), expertise from `level_map` (default 3.0). -/
def map_to_coordinates (data : Metadata) : Coordinates4D ℚ :=
  { x := (pillar_map.lookup (pyLower (data.domain.getD ""))).getD 3
    y := (level_map.lookup (pyLower (data.complexity.getD ""))).getD 2
    z :=
      match parseDecimal (data.«section».getD "1.0") with
      | some q => max 0 (min 1 (q / 10))
      | none => 1/2
    e := (level_map.lookup (pyLower (data.expertise_required.getD "intermediate"))).getD 3 }

/-- Squared 4D Euclidean distance; `find_nearest` computes
`math.sqrt` of this quantity.  Sorting by the distance or by its square is
the same ordering since `Real.sqrt` is monotone. -/
def sqDist (a b : Coordinates4D ℚ) : ℚ :=
  (a.x - b.x) ^ 2 + (a.y - b.y) ^ 2 + (a.z - b.z) ^ 2 + (a.e - b.e) ^ 2

/-- A document held by the vector store, as read by `find_nearest`. -/
structure StoredDoc where
  id : ℕ
  content : String
  metadata : List (String × String)
  coordinates : Coordinates4D ℚ
deriving DecidableEq

/-- One entry of the result list built by `find_nearest`; `sqdist` is the
square of the `distance` value the source stores. -/
structure NearEntry where
  id : ℕ
  content : String
  metadata : List (String × String)
  coordinates : Coordinates4D ℚ
  sqdist : ℚ
deriving DecidableEq

/-- Builds the result record for one document, as the loop body of
`find_nearest` does. -/
def near_entry (target : Coordinates4D ℚ) (d : StoredDoc) : NearEntry :=
  ⟨d.id, d.content, d.metadata, d.coordinates, sqDist d.coordinates target⟩

/-- The comparison `results.sort(key=lambda x: x["distance"])` sorts by. -/
def nearLe (a b : NearEntry) : Prop := a.sqdist ≤ b.sqdist

instance : DecidableRel nearLe := fun a b => inferInstanceAs (Decidable (a.sqdist ≤ b.sqdist))

instance : IsTotal NearEntry nearLe := ⟨fun a b => le_total a.sqdist b.sqdist⟩

instance : IsTrans NearEntry nearLe := ⟨fun _ _ _ h h2 => le_trans h h2⟩

/-- `SpaceMapper.find_nearest`: computes each document's 4D Euclidean
distance to the target, sorts ascending with Python's stable sort
(modelled by the stable `List.insertionSort`), and keeps the first
`max_results` entries. -/
def find_nearest (max_results : ℕ) (target : Coordinates4D ℚ) (docs : List StoredDoc) :
    List NearEntry :=
  (((docs.map (near_entry target)).insertionSort nearLe)).take max_results

/-- The real-valued 4D Euclidean distance of `find_nearest`
(`math.sqrt` of the sum of squared coordinate differences), over
real-modelled float coordinates. -/
noncomputable def dist4 (a b : Coordinates4D ℝ) : ℝ :=
  Real.sqrt ((a.x - b.x) ^ 2 + (a.y - b.y) ^ 2 + (a.z - b.z) ^ 2 + (a.e - b.e) ^ 2)

/-- The four coordinates as a point of Euclidean 4-space. -/
noncomputable def toE (a : Coordinates4D ℝ) : EuclideanSpace ℝ (Fin 4) :=
  (WithLp.equiv 2 (Fin 4 → ℝ)).symm ![a.x, a.y, a.z, a.e]

/-! ## advanced_ai_engine.py — personas, scoring, weighted consensus -/

/-- The Python exception classes that reach callers of the persona engine
(`ValueError` from input validation, `ProcessingError` from wrapped
failures). -/
inductive PyError where
  | valueError (msg : String)
  | processingError (msg : String)
deriving DecidableEq

/-- One entry of the `PERSONA_CONFIG` dictionary. -/
structure PersonaCfg where
  ptype : String
  pname : String
  expertise : List String
  confidence_threshold : ℚ
  consensus_weight : ℚ
deriving DecidableEq

/-- `PERSONA_CONFIG`, in dict insertion order (legal, financial, compliance). -/
def PERSONA_CONFIG : List PersonaCfg :=
  [ ⟨"legal", "Legal Expert", ["regulatory", "compliance", "legal_analysis"], 3/4, 2/5⟩,
    ⟨"financial", "Financial Analyst",
      ["financial_analysis", "risk_assessment", "market_analysis"], 4/5, 3/10⟩,
    ⟨"compliance", "Compliance Officer",
      ["regulatory_compliance", "audit", "risk_management"], 17/20, 3/10⟩ ]

/-- Consensus weight of a persona type, as `self.personas[p]["consensus_weight"]`
reads it from the registry built out of `PERSONA_CONFIG`. -/
def consensus_weight_of (p : String) : ℚ :=
  ((PERSONA_CONFIG.find? (fun c => c.ptype == p)).map (fun c => c.consensus_weight)).getD 0

/-- Does `needle` start `hay`? (helper for Python's `in` on strings) -/
def startsWithL : List Char → List Char → Bool
  | [], _ => true
  | _ :: _, [] => false
  | a :: as, b :: bs => a == b && startsWithL as bs

/-- Substring occurrence over character lists. -/
def infixOccurs (needle : List Char) : List Char → Bool
  | [] => needle.isEmpty
  | c :: cs => startsWithL needle (c :: cs) || infixOccurs needle cs

/-- Python `skill.lower() in text.lower()`. -/
def pyInStr (needle hay : String) : Bool :=
  infixOccurs (pyLower needle).data (pyLower hay).data

/-- Score of one persona in `PersonaManager.score_personas`: keyword matches
against the query plus keyword matches against the stringified context
values, divided by the persona's expertise-list length. -/
def persona_score (p : PersonaCfg) (query : String) (context : List (String × String)) : ℚ :=
  let expertise_match := (p.expertise.filter (fun skill => pyInStr skill query)).length
  let context_match :=
    (p.expertise.filter (fun skill => context.any (fun kv => pyInStr skill kv.2))).length
  ((expertise_match : ℚ) + (context_match : ℚ)) / (p.expertise.length : ℚ)

/-- `PersonaManager.score_personas` (its scores dict, in persona order). -/
def score_personas (query : String) (context : List (String × String)) :
    List (String × ℚ) :=
  PERSONA_CONFIG.map (fun p => (p.ptype, persona_score p query context))

/-- The dict comprehension `{k: v for k, v in scores.items() if v > 0.3}`. -/
def relevant_personas (query : String) (context : List (String × String)) :
    List (String × ℚ) :=
  (score_personas query context).filter (fun e => 3/10 < e.2)

/-- A persona analysis result dict.  A successful `analyze` supplies
`analysis`/`confidence`/`recommendations`/`next_steps`; the degraded dict
built at the persona boundary carries only `error` and `confidence`, so
`analysis` and `confidence` are optional here (`result["analysis"]` raises
`KeyError` when absent, `result.get("confidence", 0.5)` defaults). -/
structure PResult where
  analysis : Option String
  confidence : Option ℚ
  recommendations : List String
  next_steps : List String
  visualizations : List String
  error : Option String
deriving DecidableEq

/-- The degraded result `{"error": str(e), "confidence": 0.0}` produced when
a persona's analysis raises. -/
def degraded_result (msg : String) : PResult :=
  ⟨none, some 0, [], [], [], some msg⟩

/-- The combined dict built by `_combine_persona_results`.  The source
renders `analysis` as one string of weight-prefixed segments; the model
keeps the (weight, text) pairs that string is built from. -/
structure CombinedResult where
  analysis : List (ℚ × String)
  confidence : ℚ
  recommendations : List (String × ℚ)
  next_steps : List (String × ℚ)
  persona_contributions : List (String × ℚ)
  visualizations : List String
deriving DecidableEq

/-- The empty accumulator `combined_result` is initialised to. -/
def empty_combined : CombinedResult := ⟨[], 0, [], [], [], []⟩

/-- `total_weight` of `_combine_persona_results`:
`sum(personas[p]["consensus_weight"] * scores[p] for p in scores if scores[p] > 0.3)`. -/
def total_weight (scores : List (String × ℚ)) : ℚ :=
  ((scores.filter (fun e => 3/10 < e.2)).map
    (fun e => consensus_weight_of e.1 * e.2)).sum

/-- The loop of `_combine_persona_results` over
`zip(results, scores.items())`: entries whose score is ≤ 0.3 are skipped;
otherwise the (misaligned) result is folded in.  A degraded result has no
`"analysis"` key, so `result["analysis"]` raises `KeyError`, which the
enclosing generic handler wraps into a `ProcessingError`. -/
def combine_fold (total : ℚ) :
    List (PResult × (String × ℚ)) → CombinedResult → Except PyError CombinedResult
  | [], acc => .ok acc
  | (r, (p, s)) :: rest, acc =>
    if s ≤ 3/10 then combine_fold total rest acc
    else
      match r.analysis with
      | none => .error (.processingError "Failed to combine persona results: KeyError analysis")
      | some txt =>
        let weight := consensus_weight_of p * s / total
        combine_fold total rest
          { analysis := acc.analysis ++ [(weight, txt)]
            confidence := acc.confidence + weight * (r.confidence.getD (1/2))
            recommendations := acc.recommendations ++ r.recommendations.map (fun c => (c, weight))
            next_steps := acc.next_steps ++ r.next_steps.map (fun c => (c, weight))
            persona_contributions := acc.persona_contributions ++ [(p, weight)]
            visualizations := acc.visualizations ++ r.visualizations }

/-- `PersonaManager._combine_persona_results`.  The two `ValueError`s are
re-raised unchanged by the method's own `except ValueError` handler. -/
def _combine_persona_results (results : List PResult) (scores : List (String × ℚ)) :
    Except PyError CombinedResult :=
  if results.isEmpty then .error (.valueError "No results to combine")
  else if total_weight scores = 0 then .error (.valueError "Total weight cannot be zero")
  else combine_fold (total_weight scores) (results.zip scores) empty_combined

/-- What a persona's externally supplied analysis does for one query:
returns a result dict, raises inside `analyze`, or fails to import
(the lazy `__import__` of `_analyze_with_persona`). -/
inductive PersonaOutcome where
  | ok (r : PResult)
  | analyzeRaised (msg : String)
  | importFailed
deriving DecidableEq

/-- `PersonaManager._analyze_with_persona`: an `ImportError` is re-raised as
`ProcessingError`; any other exception is converted to the degraded result. -/
def _analyze_with_persona (oracle : String → PersonaOutcome) (persona_type : String) :
    Except PyError PResult :=
  match oracle persona_type with
  | .ok r => .ok r
  | .analyzeRaised msg => .ok (degraded_result msg)
  | .importFailed => .error (.processingError ("Persona module not found: " ++ persona_type))

/-- The two shapes `analyze_with_personas` returns on success: the empty
list when no persona is relevant, otherwise the combined dict. -/
inductive AWPOutput where
  | empty
  | combined (c : CombinedResult)
deriving DecidableEq

/-- The `except` clauses of `analyze_with_personas`: a `ValueError` is
re-raised unchanged, anything else is wrapped into a `ProcessingError`. -/
def wrap_awp_error : PyError → PyError
  | .valueError msg => .valueError msg
  | .processingError msg => .processingError ("Failed to analyze with personas: " ++ msg)

/-- `PersonaManager.analyze_with_personas`: validates the query, scores the
personas, fans out over the relevant ones, filters out raised tasks
(`return_exceptions=True` + isinstance filter), raises if none is left, and
combines the surviving results against the full scores dict. -/
def analyze_with_personas (oracle : String → PersonaOutcome) (query : String)
    (context : List (String × String)) : Except PyError AWPOutput :=
  if query = "" then .error (.valueError "Query must be a non-empty string")
  else
    let relevant := relevant_personas query context
    if relevant.isEmpty then .ok .empty
    else
      let gathered := relevant.map (fun e => _analyze_with_persona oracle e.1)
      let valid := gathered.filterMap (fun r =>
        match r with
        | .ok v => some v
        | .error _ => none)
      if valid.isEmpty then
        .error (wrap_awp_error (.processingError "All persona analyses failed"))
      else
        match _combine_persona_results valid (score_personas query context) with
        | .ok c => .ok (.combined c)
        | .error e => .error (wrap_awp_error e)

/-- True when the value is a raised `ProcessingError`. -/
def combine_raises_processing (r : Except PyError CombinedResult) : Bool :=
  match r with
  | .error (.processingError _) => true
  | _ => false

/-! ### `AdvancedAIEngine._validate_results` — validation metrics -/

/-- The `validation_metrics` dict added by `_validate_results`. -/
structure ValidationMetrics where
  recommendation_consistency : ℚ
  confidence_variance : ℚ
  persona_diversity : ℚ
  validation_score : ℚ
deriving DecidableEq

/-- The (threshold, contribution-weight) pairs collected by the loop
`for persona, weight in results["persona_contributions"].items()` for the
personas found in `PERSONA_CONFIG`. -/
def threshold_weight_pairs (contribs : List (String × ℚ)) : List (ℚ × ℚ) :=
  contribs.filterMap (fun pw =>
    (PERSONA_CONFIG.find? (fun c => c.ptype == pw.1)).map
      (fun c => (c.confidence_threshold, pw.2)))

/-- `np.mean` over a list of rationals. -/
def npMean (xs : List ℚ) : ℚ := xs.sum / (xs.length : ℚ)

/-- The `weighted_variance` computation of `_validate_results`:
`np.average((scores - np.mean(scores))**2, weights=weights)` over the
threshold/weight pairs, and `1.0` when no pair was collected.  Note the
centre is the UNWEIGHTED `np.mean` of the thresholds. -/
def weighted_variance (pairs : List (ℚ × ℚ)) : ℚ :=
  if pairs.isEmpty then 1
  else
    ((pairs.map (fun p => p.2 * (p.1 - npMean (pairs.map Prod.fst)) ^ 2)).sum) /
      ((pairs.map Prod.snd).sum)

/-- `AdvancedAIEngine._validate_results`: `none` models the early return
(results unchanged, no metrics) when fewer than 2 personas contributed. -/
def _validate_results (r : CombinedResult) : Option ValidationMetrics :=
  if r.persona_contributions.length < 2 then none
  else
    let rec_consistency : ℚ :=
      ((r.recommendations.map Prod.fst).dedup.length : ℚ) /
        (max r.recommendations.length 1 : ℕ)
    let wv := weighted_variance (threshold_weight_pairs r.persona_contributions)
    some
      { recommendation_consistency := rec_consistency
        confidence_variance := wv
        persona_diversity := (r.persona_contributions.length : ℚ) / 3
        validation_score :=
          2/5 * rec_consistency + 3/10 * (1 - wv) +
            3/10 * min 1 ((r.persona_contributions.length : ℚ) / 3) }

/-- The confidence variance the specification states: weighted variance of
the thresholds around their WEIGHTED mean, with the contribution weights.
Stated from the spec's words, to be compared with `weighted_variance`. -/
def spec_confidence_variance (pairs : List (ℚ × ℚ)) : ℚ :=
  let wsum := (pairs.map Prod.snd).sum
  let mu := (pairs.map (fun p => p.2 * p.1)).sum / wsum
  (pairs.map (fun p => p.2 * (p.1 - mu) ^ 2)).sum / wsum

/-- The amended description of the code's metric: the contribution-weighted
average of the squared deviations of the configured thresholds from their
unweighted mean. -/
def unweighted_centre_variance (pairs : List (ℚ × ℚ)) : ℚ :=
  ((pairs.map (fun p => p.2 * (p.1 - (pairs.map Prod.fst).sum / (pairs.length : ℚ)) ^ 2)).sum) /
    ((pairs.map Prod.snd).sum)

/-! ## compliance_verifier.py — direct and comprehensive compliance -/

/-- A Python attribute value as compared by `entity.get(key) == value`;
`vNone` is both Python's `None` and the result of `get` on a missing key. -/
inductive PyVal where
  | vNone
  | vStr (s : String)
  | vNum (q : ℚ)
  | vBool (b : Bool)
deriving DecidableEq

/-- An entity dict (attribute name → value). -/
def Entity : Type := List (String × PyVal)

/-- Python `entity.get(key)`: the stored value, `None` when absent. -/
def entity_get (e : Entity) (key : String) : PyVal :=
  (List.lookup key e).getD .vNone

/-- A regulation as consumed by `_check_compliance`; a missing
`requirements` key is the empty dict (`regulation.get("requirements", {})`). -/
structure Regulation where
  id : String
  requirements : List (String × PyVal)
deriving DecidableEq

/-- The per-regulation conjunction of `_check_compliance`:
`all(entity.get(key) == value for key, value in requirements.items())`. -/
def regulation_compliant (e : Entity) (reg : Regulation) : Bool :=
  reg.requirements.all (fun kv => entity_get e kv.1 == kv.2)

/-- `ComplianceVerifier._check_compliance`: one boolean per regulation,
keyed by the regulation's id, in corpus order. -/
def _check_compliance (e : Entity) (regs : List Regulation) : List (String × Bool) :=
  regs.map (fun reg => (reg.id, regulation_compliant e reg))

/-- A related regulation as consumed by
`_assess_comprehensive_compliance`; a missing `related_ids` key is the
empty list (`regulation.get("related_ids", [])`). -/
structure RelReg where
  id : String
  related_ids : List String
deriving DecidableEq

/-- The propagated compliance value
`all(initial_results.get(related_id, False) for related_id in related_ids)`:
a prerequisite id absent from the direct results counts as `False`. -/
def propagated_compliance (initial : List (String × Bool)) (reg : RelReg) : Bool :=
  reg.related_ids.all (fun rid => (List.lookup rid initial).getD false)

/-- The loop body of `_assess_comprehensive_compliance`: skip a related
regulation whose id is already present, otherwise insert (append) the value
propagated from the DIRECT results. -/
def assess_step (initial acc : List (String × Bool)) (reg : RelReg) :
    List (String × Bool) :=
  if (List.lookup reg.id acc).isSome then acc
  else acc ++ [(reg.id, propagated_compliance initial reg)]

/-- `ComplianceVerifier._assess_comprehensive_compliance`: starts from a
copy of the direct results and folds `assess_step` over the related
regulations.  Dict writes of fresh keys are modelled by appending. -/
def _assess_comprehensive_compliance (initial : List (String × Bool))
    (related : List RelReg) : List (String × Bool) :=
  related.foldl (assess_step initial) initial

/-! ## algorithm_of_thought.py + config/aot_config.py — the AoT workflow

`AlgorithmOfThought.process_query` loops `while self.state != COMPLETE`,
executing the current state, appending one entry to
`workflow_data["state_history"]` and then calling `self._transition_state`.
The transition method itself is not part of the repository's sources (only
its caller and the configuration exist), so it is modelled from the spec
below. -/

/-- The `AIState` enum. -/
inductive AIState where
  | query_parsing
  | contextualization
  | data_retrieval
  | gap_analysis
  | expert_reasoning
  | compliance_check
  | response_generation
  | complete
deriving DecidableEq

/-- The `state_transition_rules` dict of `AoT_CONFIG`: success target and
failure target per state; `complete` has no entry. -/
def state_transition_rules : AIState → Option (AIState × AIState)
  | .query_parsing => some (.contextualization, .response_generation)
  | .contextualization => some (.data_retrieval, .query_parsing)
  | .data_retrieval => some (.gap_analysis, .contextualization)
  | .gap_analysis => some (.expert_reasoning, .data_retrieval)
  | .expert_reasoning => some (.compliance_check, .gap_analysis)
  | .compliance_check => some (.response_generation, .expert_reasoning)
  | .response_generation => some (.complete, .expert_reasoning)
  | .complete => none

/-- `AoT_CONFIG["max_retries"]`. -/
def max_retries : ℕ := 3

/-- The number of `AIState` values (the "number of states" of the claimed
history bound). -/
def aot_state_count : ℕ := 8

/-- The mutable workflow data threaded by `process_query`: the current
state, the per-state retry counters, and the state history (modelled by
the sequence of executed states; timestamps and result summaries carry no
control-flow information). -/
structure WorkflowData where
  state : AIState
  retries : AIState → ℕ
  history : List AIState

/-- Modelled from the spec: `AlgorithmOfThought._transition_state` is
absent from the sources; per §4.4 of the spec, on success the machine
advances to the state's configured `success` target, on failure it advances
to the configured `failure` target and increments the failing state's retry
counter, and exceeding `max_retries` converts the failure into a fatal
workflow error (`Except.error`). -/
def _transition_state (outcome : Bool) (w : WorkflowData) : Except Unit WorkflowData :=
  match state_transition_rules w.state with
  | none => .error ()
  | some (succ, fail) =>
    if outcome then .ok { w with state := succ }
    else
      let r := w.retries w.state + 1
      if max_retries < r then .error ()
      else .ok { w with state := fail,
                        retries := fun s => if s = w.state then r else w.retries s }

/-- Result of one `process_query` run: normal completion or the fatal
workflow error, each carrying the recorded state history. -/
inductive RunOutcome where
  | completed (history : List AIState)
  | fatalError (history : List AIState)
deriving DecidableEq

/-- The recorded state history of a run. -/
def run_history : RunOutcome → List AIState
  | .completed h => h
  | .fatalError h => h

/-- Whether a run completed normally. -/
def run_completed : RunOutcome → Bool
  | .completed _ => true
  | .fatalError _ => false

/-- The `while self.state != AIState.COMPLETE` loop of
`AlgorithmOfThought.process_query`: executes the current state (the
success/failure of the state's work is supplied by `oracle`, indexed by the
number of steps run so far), appends the state to the history, and
transitions.  `fuel` bounds the unrolling; `none` means the fuel ran out
before the loop finished. -/
def process_query_loop (oracle : ℕ → Bool) : ℕ → WorkflowData → Option RunOutcome
  | 0, w => if w.state = .complete then some (.completed w.history) else none
  | fuel + 1, w =>
    if w.state = .complete then some (.completed w.history)
    else
      match _transition_state (oracle w.history.length)
          { w with history := w.history ++ [w.state] } with
      | .error _ => some (.fatalError (w.history ++ [w.state]))
      | .ok w2 => process_query_loop oracle fuel w2

/-- The workflow data `process_query` creates before entering its loop. -/
def initial_workflow : WorkflowData := ⟨.query_parsing, fun _ => 0, []⟩

/-- Steps still available to a state before a further failure is fatal. -/
def retry_budget (w : WorkflowData) (s : AIState) : ℕ := max_retries - w.retries s

/-- Success-path length from a state to `complete`. -/
def dist_to_complete : AIState → ℕ
  | .query_parsing => 7
  | .contextualization => 6
  | .data_retrieval => 5
  | .gap_analysis => 4
  | .expert_reasoning => 3
  | .compliance_check => 2
  | .response_generation => 1
  | .complete => 0

/-- A ranking function for the loop: each executed state strictly
decreases it.  The coefficients weigh each state's remaining retry budget
by how far its failure target sits behind its position. -/
def potential (w : WorkflowData) : ℕ :=
  dist_to_complete w.state +
    2 * retry_budget w .contextualization +
    2 * retry_budget w .data_retrieval +
    2 * retry_budget w .gap_analysis +
    2 * retry_budget w .expert_reasoning +
    2 * retry_budget w .compliance_check +
    3 * retry_budget w .response_generation

/-- The outcome sequence of a run in which every state except
`query_parsing` fails exactly `max_retries` times and the workflow still
completes: the recorded history then has 46 entries. -/
def c2_outcomes : List Bool :=
  [true, false, true, false, true, false, true, true,
   false, true, false, true, false, true, true,
   false, true, false, true, false, true, true,
   false, true, false, true, false, true, true,
   false, true, false, true, false, true, true,
   false, true, true, false, true, true, false, true, true, true]

/-! ## Concrete scenario inputs used by the claim theorems -/

/-- The legal persona's successful analysis in the two-persona scenario
(spec end-to-end scenario 1: legal and compliance both score 0.6). -/
def c1_legal_result : PResult :=
  ⟨some "legal analysis", some (7/10), ["r1"], ["s1"], [], none⟩

/-- The compliance persona's successful analysis in the same scenario. -/
def c1_compliance_result : PResult :=
  ⟨some "compliance analysis", some (3/5), ["r2"], ["s2"], [], none⟩

/-- The scores dict of scenario 1: legal and compliance 0.6, financial not
relevant.  Dict order is the `PERSONA_CONFIG` insertion order. -/
def c1_scenario_scores : List (String × ℚ) :=
  [("legal", 3/5), ("financial", 0), ("compliance", 3/5)]

/-- The successful analysis result used in the C3 scenario. -/
def c3_ok_result : PResult := ⟨some "ok", some (4/5), [], [], [], none⟩

/-- Persona behaviour for the C3 scenario: the legal persona's analysis
raises, the others return successfully. -/
def c3_oracle : String → PersonaOutcome :=
  fun pt => if pt = "legal" then .analyzeRaised "boom" else .ok c3_ok_result

/-- A consensus result with two contributing personas of unequal weight,
used against the confidence-variance claim. -/
def c4_input : CombinedResult :=
  ⟨[], 0, [], [], [("legal", 3/4), ("financial", 1/4)], []⟩

/-- A successful persona result for the zero-total-weight scenario. -/
def c5_ok_result : PResult := ⟨some "x", some (1/2), [], [], [], none⟩

/-- Scores where no persona is above the 0.3 relevance threshold, so the
combining denominator is zero. -/
def c5_zero_scores : List (String × ℚ) :=
  [("legal", 1/5), ("financial", 0), ("compliance", 3/10)]

/-- Target coordinate of the nearest-neighbour tie scenario. -/
def c6_target : Coordinates4D ℚ := ⟨3, 2, 1, 2⟩

/-- Two documents at the same coordinate (equidistant from the target),
stored with the larger identifier first. -/
def c6_docs : List StoredDoc :=
  [⟨2, "doc two", [], ⟨3, 2, 1, 3⟩⟩, ⟨1, "doc one", [], ⟨3, 2, 1, 3⟩⟩]

/-- A single document used to witness the small-corpus clause of C6. -/
def c6_witness_doc : StoredDoc := ⟨7, "w", [], ⟨1, 1, 0, 1⟩⟩

/-! ## Helper lemmas -/

theorem dist4_eq_dist (a b : Coordinates4D ℝ) : dist4 a b = dist (toE a) (toE b) := by
  rw [EuclideanSpace.dist_eq, dist4]
  congr 1
  simp [toE, Fin.sum_univ_four, WithLp.equiv_symm_pi_apply, Real.dist_eq, sq_abs]

theorem toE_injective : Function.Injective toE := by
  intro a b h
  have h0 := congrFun h 0
  have h1 := congrFun h 1
  have h2 := congrFun h 2
  have h3 := congrFun h 3
  simp only [toE, WithLp.equiv_symm_pi_apply, Matrix.cons_val_zero, Matrix.cons_val_one,
    Matrix.head_cons, Matrix.cons_val_two, Matrix.tail_cons, Matrix.cons_val_three] at h0 h1 h2 h3
  cases a; cases b
  simp_all

theorem filter_orderedInsert (q : ℚ) (a : NearEntry) (l : List NearEntry) :
    (List.orderedInsert nearLe a l).filter (fun x => x.sqdist == q) =
      if a.sqdist == q then a :: l.filter (fun x => x.sqdist == q)
      else l.filter (fun x => x.sqdist == q) := by
  induction l with
  | nil =>
    by_cases ha : a.sqdist == q <;> simp [List.orderedInsert, List.filter_cons, ha]
  | cons b t ih =>
    by_cases h : nearLe a b
    · by_cases ha : a.sqdist == q <;> simp [List.orderedInsert, h, List.filter_cons, ha]
    · rw [List.orderedInsert, if_neg h]
      by_cases hb : b.sqdist == q
      · by_cases ha : a.sqdist == q
        · exfalso
          apply h
          simp only [beq_iff_eq] at ha hb
          exact le_of_eq (ha.trans hb.symm)
        · simp [List.filter_cons, hb, ha, ih]
      · by_cases ha : a.sqdist == q <;> simp [List.filter_cons, hb, ha, ih]

theorem filter_insertionSort (q : ℚ) (l : List NearEntry) :
    (List.insertionSort nearLe l).filter (fun x => x.sqdist == q) =
      l.filter (fun x => x.sqdist == q) := by
  induction l with
  | nil => rfl
  | cons a t ih =>
    rw [List.insertionSort, filter_orderedInsert, List.filter_cons]
    by_cases ha : a.sqdist == q <;> simp [ha, ih]

theorem potential_decreases (w w2 : WorkflowData) (b : Bool)
    (h : _transition_state b w = .ok w2) : potential w2 < potential w := by
  obtain ⟨st, rt, hist⟩ := w
  cases st <;> cases b <;>
    simp only [_transition_state, state_transition_rules, Bool.false_eq_true, if_true,
      if_false, ite_true, ite_false] at h
  all_goals try exact Except.noConfusion h
  all_goals try split at h
  all_goals try exact Except.noConfusion h
  all_goals rw [Except.ok.injEq] at h
  all_goals subst h
  all_goals try simp only [max_retries, not_lt] at *
  all_goals simp [potential, retry_budget, dist_to_complete, max_retries]
  all_goals omega

theorem dist_pos_of_ne_complete {s : AIState} (h : s ≠ .complete) :
    1 ≤ dist_to_complete s := by
  cases s <;> simp [dist_to_complete] at h ⊢

theorem transition_history (w w2 : WorkflowData) (b : Bool)
    (h : _transition_state b w = .ok w2) : w2.history = w.history := by
  obtain ⟨st, rt, hist⟩ := w
  cases st <;> cases b <;>
    simp only [_transition_state, state_transition_rules, Bool.false_eq_true, if_true,
      if_false, ite_true, ite_false] at h
  all_goals try exact Except.noConfusion h
  all_goals try split at h
  all_goals try exact Except.noConfusion h
  all_goals rw [Except.ok.injEq] at h
  all_goals subst h
  all_goals rfl

theorem loop_terminates :
    ∀ (fuel : ℕ) (oracle : ℕ → Bool) (w : WorkflowData), potential w ≤ fuel →
      (process_query_loop oracle fuel w).isSome := by
  intro fuel
  induction fuel with
  | zero =>
    intro oracle w h
    by_cases hc : w.state = .complete
    · simp [process_query_loop, hc]
    · exfalso
      have h1 := dist_pos_of_ne_complete hc
      have h2 : 1 ≤ potential w := le_trans h1 (by simp [potential]; omega)
      omega
  | succ n ih =>
    intro oracle w h
    rw [process_query_loop]
    by_cases hc : w.state = .complete
    · simp [hc]
    · rw [if_neg hc]
      rcases htr : _transition_state (oracle w.history.length)
          { w with history := w.history ++ [w.state] } with e | w2
      · rfl
      · have hlt0 := potential_decreases _ _ _ htr
        have hlt : potential w2 < potential w := hlt0
        exact ih oracle w2 (by omega)

theorem loop_history_length :
    ∀ (fuel : ℕ) (oracle : ℕ → Bool) (w : WorkflowData) (out : RunOutcome),
      process_query_loop oracle fuel w = some out →
      (run_history out).length ≤ w.history.length + fuel := by
  intro fuel
  induction fuel with
  | zero =>
    intro oracle w out h
    rw [process_query_loop] at h
    split at h
    · injection h with h2
      subst h2
      simp [run_history]
    · exact Option.noConfusion h
  | succ n ih =>
    intro oracle w out h
    rw [process_query_loop] at h
    split at h
    · injection h with h2
      subst h2
      simp [run_history]
    · split at h
      · injection h with h2
        subst h2
        simp [run_history]
      · rename_i w2 heq
        have hh := transition_history _ _ _ heq
        have hthis := ih oracle _ out h
        rw [hh] at hthis
        simp only [List.length_append, List.length_cons, List.length_nil] at hthis
        omega

theorem lookup_append_some {β : Type} (l1 l2 : List (String × β)) (k : String) (v : β)
    (h : List.lookup k l1 = some v) : List.lookup k (l1 ++ l2) = some v := by
  induction l1 with
  | nil => simp [List.lookup] at h
  | cons a t ih =>
    obtain ⟨k1, v1⟩ := a
    rw [List.cons_append, List.lookup]
    rw [List.lookup] at h
    cases hk : (k == k1) <;> rw [hk] at h <;> simp only [] at h ⊢
    · exact ih h
    · exact h

theorem lookup_append_none {β : Type} (l1 l2 : List (String × β)) (k : String)
    (h : List.lookup k l1 = none) : List.lookup k (l1 ++ l2) = List.lookup k l2 := by
  induction l1 with
  | nil => simp
  | cons a t ih =>
    obtain ⟨k1, v1⟩ := a
    rw [List.cons_append, List.lookup]
    rw [List.lookup] at h
    cases hk : (k == k1) <;> rw [hk] at h <;> simp only [] at h ⊢
    · exact ih h
    · exact Option.noConfusion h

theorem assess_fold_keeps (initial : List (String × Bool)) :
    ∀ (rel : List RelReg) (acc : List (String × Bool)) (k : String) (v : Bool),
      List.lookup k acc = some v →
      List.lookup k (rel.foldl (assess_step initial) acc) = some v := by
  intro rel
  induction rel with
  | nil => intro acc k v h; simpa using h
  | cons r t ih =>
    intro acc k v h
    rw [List.foldl_cons]
    apply ih
    unfold assess_step
    split
    · exact h
    · exact lookup_append_some _ _ _ _ h

theorem assess_fold_first (initial : List (String × Bool)) :
    ∀ (rel : List RelReg) (acc : List (String × Bool)) (reg : RelReg),
      rel.find? (fun r => r.id == reg.id) = some reg →
      List.lookup reg.id acc = none →
      List.lookup reg.id (rel.foldl (assess_step initial) acc) =
        some (propagated_compliance initial reg) := by
  intro rel
  induction rel with
  | nil => intro acc reg h; simp [List.find?] at h
  | cons r t ih =>
    intro acc reg hfind hnone
    rw [List.foldl_cons]
    rw [List.find?] at hfind
    cases hr : (r.id == reg.id) <;> rw [hr] at hfind <;> simp only [] at hfind
    · apply ih _ _ hfind
      unfold assess_step
      split
      · exact hnone
      · rw [lookup_append_none _ _ _ hnone, List.lookup]
        have : (reg.id == r.id) = false := by
          simp only [beq_eq_false_iff_ne] at hr ⊢
          exact fun hrr => hr hrr.symm
        rw [this]
        rfl
    · injection hfind with hfind
      subst hfind
      apply assess_fold_keeps
      unfold assess_step
      rw [hnone]
      simp only [Option.isSome_none, Bool.false_eq_true, if_false]
      rw [lookup_append_none _ _ _ hnone, List.lookup]
      simp

theorem lookup_getD_bound (l : List (String × ℚ)) (lo hi d : ℚ) (hd : lo ≤ d ∧ d ≤ hi)
    (hl : ∀ p ∈ l, lo ≤ p.2 ∧ p.2 ≤ hi) (k : String) :
    lo ≤ (l.lookup k).getD d ∧ (l.lookup k).getD d ≤ hi := by
  induction l with
  | nil => simpa using hd
  | cons a t ih =>
    obtain ⟨k1, v1⟩ := a
    rw [List.lookup]
    cases hk : (k == k1) <;> simp only []
    · exact ih (fun p hp => hl p (List.mem_cons_of_mem _ hp))
    · simpa using hl (k1, v1) (List.mem_cons_self _ _)

theorem cw_legal : consensus_weight_of "legal" = 2/5 := rfl

theorem cw_financial : consensus_weight_of "financial" = 3/10 := rfl

theorem cw_compliance : consensus_weight_of "compliance" = 3/10 := rfl

theorem pyin_regulatory : pyInStr "regulatory" "regulatory_compliance audit" = true := rfl

theorem pyin_compliance : pyInStr "compliance" "regulatory_compliance audit" = true := rfl

theorem pyin_legal_analysis :
    pyInStr "legal_analysis" "regulatory_compliance audit" = false := rfl

theorem pyin_financial_analysis :
    pyInStr "financial_analysis" "regulatory_compliance audit" = false := rfl

theorem pyin_risk_assessment :
    pyInStr "risk_assessment" "regulatory_compliance audit" = false := rfl

theorem pyin_market_analysis :
    pyInStr "market_analysis" "regulatory_compliance audit" = false := rfl

theorem pyin_regulatory_compliance :
    pyInStr "regulatory_compliance" "regulatory_compliance audit" = true := rfl

theorem pyin_audit : pyInStr "audit" "regulatory_compliance audit" = true := rfl

theorem pyin_risk_management :
    pyInStr "risk_management" "regulatory_compliance audit" = false := rfl

theorem score_personas_scenario : score_personas "regulatory_compliance audit" [] =
    [("legal", 2/3), ("financial", 0), ("compliance", 2/3)] := by
  norm_num [score_personas, PERSONA_CONFIG, persona_score, List.filter,
    pyin_regulatory, pyin_compliance, pyin_legal_analysis, pyin_financial_analysis,
    pyin_risk_assessment, pyin_market_analysis, pyin_regulatory_compliance, pyin_audit,
    pyin_risk_management]

theorem relevant_personas_scenario : relevant_personas "regulatory_compliance audit" [] =
    [("legal", 2/3), ("compliance", 2/3)] := by
  unfold relevant_personas
  rw [score_personas_scenario]
  norm_num [List.filter]

theorem threshold_weight_pairs_scenario :
    threshold_weight_pairs [("legal", (3:ℚ)/4), ("financial", 1/4)] =
      [(3/4, 3/4), (4/5, 1/4)] := rfl

/-! ## Claim theorems -/

/-- C1: in the cited two-relevant-persona scenario (legal and compliance
both scoring 0.6, financial 0), `_combine_persona_results` zips the
filtered results list against the unfiltered scores dict, so the
compliance persona's result is paired with financial's score and skipped:
the contributions dict holds only legal at 4/7, the contributions sum to
4/7 rather than 1, and the combined confidence is 4/7 of legal's reported
confidence instead of the contribution-weighted average 4/7·0.7 + 3/7·0.6
of both reported confidences. -/
theorem c1_zip_misalignment_eval :
    _combine_persona_results [c1_legal_result, c1_compliance_result] c1_scenario_scores =
      .ok ⟨[(4/7, "legal analysis")], 2/5, [("r1", 4/7)], [("s1", 4/7)],
        [("legal", 4/7)], []⟩
    ∧ (([("legal", (4:ℚ)/7)]).map Prod.snd).sum = 4/7
    ∧ ((4:ℚ)/7 ≠ 1)
    ∧ ((2:ℚ)/5 ≠ 4/7 * (7/10) + 3/7 * (3/5)) := by
  refine ⟨?_, by norm_num, by norm_num, by norm_num⟩
  norm_num [Except.map, _combine_persona_results, total_weight, cw_legal, cw_financial,
    cw_compliance, combine_fold, empty_combined, c1_legal_result, c1_compliance_result,
    c1_scenario_scores, List.filter, List.zip, List.zipWith]

/-- C2 counterexample: with the configured transition table and
`max_retries = 3`, there is an outcome sequence under which the workflow
completes with a recorded state history of 46 entries, exceeding the
claimed bound of (number of states) × (max_retries + 1) = 32. -/
theorem c2_history_exceeds_claimed_bound :
    (process_query_loop (fun n => c2_outcomes.getD n true) 46 initial_workflow).map
      (fun o => (run_completed o, (run_history o).length)) = some (true, 46)
    ∧ aot_state_count * (max_retries + 1) < 46 := by
  exact ⟨by decide, by decide⟩

/-- C2 (amended): the workflow state machine terminates for every outcome
sequence — 46 steps of fuel always suffice from the initial workflow data
and the recorded state history has at most 46 entries — and the machine
never leaves `COMPLETE`: from any workflow data already in `COMPLETE` the
loop returns immediately, with the history unchanged, for any fuel and any
outcome sequence. -/
theorem c2_workflow_termination_amended :
    (∀ oracle : ℕ → Bool, ∃ out, process_query_loop oracle 46 initial_workflow = some out ∧
      (run_history out).length ≤ 46)
    ∧ (∀ (fuel : ℕ) (oracle : ℕ → Bool) (w : WorkflowData), w.state = .complete →
        process_query_loop oracle fuel w = some (.completed w.history)) := by
  constructor
  · intro oracle
    have hpot : potential initial_workflow = 46 := rfl
    have hsome := loop_terminates 46 oracle initial_workflow (le_of_eq hpot)
    rcases Option.isSome_iff_exists.mp hsome with ⟨out, hout⟩
    refine ⟨out, hout, ?_⟩
    have := loop_history_length 46 oracle initial_workflow out hout
    simpa [initial_workflow] using this
  · intro fuel oracle w h
    cases fuel <;> simp [process_query_loop, h]

/-- C2 witness: the never-leaves-COMPLETE clause applied to concrete
workflow data that is already complete. -/
theorem c2_workflow_termination_amended_witness :
    process_query_loop (fun _ => true) 5 ⟨.complete, fun _ => 0, []⟩ =
      some (.completed []) :=
  c2_workflow_termination_amended.2 5 (fun _ => true) ⟨.complete, fun _ => 0, []⟩ rfl

/-- C3: a single relevant persona's analysis failure aborts the whole
batch.  With legal and compliance relevant (scores 2/3 each) and only the
legal persona's analysis raising, its degraded result (which has no
`analysis` key) makes `_combine_persona_results` raise `KeyError`, which
surfaces from `analyze_with_personas` as a batch `ProcessingError` even
though the compliance persona succeeded — contradicting both directions of
the claim ("batch error iff all fail", "single failure does not abort"). -/
theorem c3_single_failure_aborts_batch_eval :
    analyze_with_personas c3_oracle "regulatory_compliance audit" [] =
      .error (.processingError
        "Failed to analyze with personas: Failed to combine persona results: KeyError analysis")
    ∧ relevant_personas "regulatory_compliance audit" [] = [("legal", 2/3), ("compliance", 2/3)]
    ∧ c3_oracle "legal" = .analyzeRaised "boom"
    ∧ c3_oracle "compliance" = .ok c3_ok_result
    ∧ c3_ok_result.error = none := by
  refine ⟨?_, relevant_personas_scenario, rfl, rfl, rfl⟩
  unfold analyze_with_personas
  rw [relevant_personas_scenario, score_personas_scenario]
  norm_num [_analyze_with_persona, c3_oracle, degraded_result, _combine_persona_results,
    combine_fold, total_weight, cw_legal, cw_financial, cw_compliance, wrap_awp_error,
    List.filterMap, List.filter, empty_combined, c3_ok_result]
  rfl

/-- C4 counterexample: for contributions legal ↦ 3/4, financial ↦ 1/4,
the code's confidence-variance metric (deviations from the UNWEIGHTED
`np.mean` of the thresholds 0.75 and 0.8) is 1/1600 = 0.000625, while the
claimed weighted variance around the weighted mean of the thresholds is
3/6400 ≈ 0.000469. -/
theorem c4_variance_centre_counterexample :
    (_validate_results c4_input).map (fun m => m.confidence_variance) = some (1/1600)
    ∧ spec_confidence_variance (threshold_weight_pairs c4_input.persona_contributions) =
        3/6400
    ∧ ((1:ℚ)/1600 ≠ 3/6400) := by
  refine ⟨?_, ?_, by norm_num⟩
  · unfold _validate_results
    norm_num [c4_input, threshold_weight_pairs_scenario, weighted_variance, npMean,
      Option.map]
  · norm_num [spec_confidence_variance, c4_input, threshold_weight_pairs_scenario]

/-- C4 (amended): for every consensus result with at least two
contributing personas (and some of them found in `PERSONA_CONFIG`), the
confidence-variance metric equals the contribution-weighted average of the
squared deviations of the personas' configured thresholds from the
thresholds' UNWEIGHTED mean — not from their weighted mean. -/
theorem c4_confidence_variance_amended :
    ∀ r : CombinedResult, 2 ≤ r.persona_contributions.length →
      threshold_weight_pairs r.persona_contributions ≠ [] →
      (_validate_results r).map (fun m => m.confidence_variance) =
        some (unweighted_centre_variance (threshold_weight_pairs r.persona_contributions)) := by
  intro r h2 hne
  unfold _validate_results
  rw [if_neg (by omega)]
  unfold weighted_variance npMean unweighted_centre_variance
  rw [if_neg (by simpa [List.isEmpty_iff] using hne)]
  simp [List.length_map]

/-- C4 witness: the amended statement applied to the concrete two-persona
consensus result. -/
theorem c4_confidence_variance_amended_witness :
    (_validate_results c4_input).map (fun m => m.confidence_variance) =
      some (unweighted_centre_variance (threshold_weight_pairs c4_input.persona_contributions)) :=
  c4_confidence_variance_amended c4_input (by norm_num [c4_input])
    (by rw [show c4_input.persona_contributions =
          [("legal", (3:ℚ)/4), ("financial", 1/4)] from rfl,
        threshold_weight_pairs_scenario]
        simp)

/-- C5 counterexample: when every persona scores at or below the 0.3
relevance threshold the combining denominator is zero and
`_combine_persona_results` raises `ValueError("Total weight cannot be
zero")`, which the method's own `except ValueError` handler re-raises
unchanged — the failure is NOT surfaced as a `ProcessingError`. -/
theorem c5_value_error_not_processing_error :
    _combine_persona_results [c5_ok_result] c5_zero_scores =
      .error (.valueError "Total weight cannot be zero")
    ∧ combine_raises_processing (_combine_persona_results [c5_ok_result] c5_zero_scores) =
        false := by
  have h : _combine_persona_results [c5_ok_result] c5_zero_scores =
      .error (.valueError "Total weight cannot be zero") := by
    norm_num [_combine_persona_results, total_weight, List.filter, cw_legal, cw_financial,
      cw_compliance, c5_zero_scores]
  exact ⟨h, by rw [h]; rfl⟩

/-- C5 (amended): whenever the results list is non-empty and the combining
denominator Σ registryWeight·score over scores above 0.3 is zero, `combine`
fails cleanly with `ValueError("Total weight cannot be zero")` (re-raised
unchanged, not wrapped into a `ProcessingError`), producing no NaN and
leaking no unhandled exception. -/
theorem c5_zero_weight_value_error_amended :
    ∀ (results : List PResult) (scores : List (String × ℚ)),
      results ≠ [] → total_weight scores = 0 →
      _combine_persona_results results scores =
        .error (.valueError "Total weight cannot be zero") := by
  intro results scores hne hz
  unfold _combine_persona_results
  rw [if_neg (by simpa [List.isEmpty_iff] using hne), if_pos hz]

/-- C5 witness: the amended statement applied to the concrete
zero-denominator scores. -/
theorem c5_zero_weight_value_error_amended_witness :
    _combine_persona_results [c5_ok_result] c5_zero_scores =
      .error (.valueError "Total weight cannot be zero") :=
  c5_zero_weight_value_error_amended [c5_ok_result] c5_zero_scores (by simp)
    (by norm_num [total_weight, List.filter, cw_legal, cw_financial, cw_compliance,
      c5_zero_scores])

/-- C6 counterexample: two documents at the same coordinate, stored with
ids 2 then 1, are both at squared distance 1 from the target; `find_nearest`
returns them in corpus order [2, 1], not in ascending identifier order
[1, 2] — Python's stable sort never consults the identifier. -/
theorem c6_tie_order_counterexample :
    (find_nearest 10 c6_target c6_docs).map (fun r => r.id) = [2, 1]
    ∧ (find_nearest 10 c6_target c6_docs).map (fun r => r.id) ≠ [1, 2]
    ∧ (find_nearest 10 c6_target c6_docs).map (fun r => r.sqdist) = [1, 1] := by
  have h : find_nearest 10 c6_target c6_docs =
      [⟨2, "doc two", [], ⟨3, 2, 1, 3⟩, 1⟩, ⟨1, "doc one", [], ⟨3, 2, 1, 3⟩, 1⟩] := by
    norm_num [find_nearest, near_entry, sqDist, c6_target, c6_docs, List.insertionSort,
      List.orderedInsert, nearLe]
  rw [h]
  refine ⟨rfl, by simp, rfl⟩

/-- C6 (amended): `find_nearest` returns the `max_results` corpus items of
least 4D Euclidean distance to the target, sorted by ascending distance;
it returns min(k, corpus size) items, the entire corpus (as a permutation)
when the corpus has at most k items, every returned item is at most as far
as every non-returned corpus item, and ties are kept in corpus order (for
each distance value, the returned items with that distance form an initial
segment of the corpus items with that distance, in corpus order). -/
theorem c6_find_nearest_amended :
    ∀ (k : ℕ) (target : Coordinates4D ℚ) (docs : List StoredDoc),
      (find_nearest k target docs).Sorted
          (fun a b => Real.sqrt (a.sqdist : ℝ) ≤ Real.sqrt (b.sqdist : ℝ))
      ∧ (find_nearest k target docs).length = min k docs.length
      ∧ (docs.length ≤ k → (find_nearest k target docs).Perm (docs.map (near_entry target)))
      ∧ (∀ x ∈ find_nearest k target docs, ∀ y ∈ docs.map (near_entry target),
          y ∉ find_nearest k target docs →
            Real.sqrt (x.sqdist : ℝ) ≤ Real.sqrt (y.sqdist : ℝ))
      ∧ (∀ q : ℚ, ∃ t, (docs.map (near_entry target)).filter (fun x => x.sqdist == q) =
          (find_nearest k target docs).filter (fun x => x.sqdist == q) ++ t) := by
  intro k target docs
  set corpus := docs.map (near_entry target) with hcorpus
  have hs : (corpus.insertionSort nearLe).Sorted nearLe :=
    List.sorted_insertionSort nearLe corpus
  have hp : (corpus.insertionSort nearLe).Perm corpus := List.perm_insertionSort nearLe corpus
  have hfind : find_nearest k target docs = (corpus.insertionSort nearLe).take k := rfl
  have hsqrt : ∀ x y : NearEntry, nearLe x y →
      Real.sqrt (x.sqdist : ℝ) ≤ Real.sqrt (y.sqdist : ℝ) := by
    intro x y hxy
    exact Real.sqrt_le_sqrt (by exact_mod_cast hxy)
  refine ⟨?_, ?_, ?_, ?_, ?_⟩
  · rw [hfind]
    exact ((hs.sublist (List.take_sublist k _))).imp (fun h => hsqrt _ _ h)
  · rw [hfind, List.length_take, hp.length_eq, hcorpus, List.length_map]
  · intro hk
    rw [hfind, List.take_of_length_le (by rw [hp.length_eq, hcorpus, List.length_map]; exact hk)]
    exact hp
  · intro x hx y hy hyn
    rw [hfind] at hx hyn
    have hymem : y ∈ corpus.insertionSort nearLe := hp.mem_iff.mpr hy
    rw [← List.take_append_drop k (corpus.insertionSort nearLe)] at hymem
    have hydrop : y ∈ (corpus.insertionSort nearLe).drop k := by
      rcases List.mem_append.mp hymem with h | h
      · exact absurd h hyn
      · exact h
    have hpair : List.Pairwise nearLe
        ((corpus.insertionSort nearLe).take k ++ (corpus.insertionSort nearLe).drop k) := by
      rw [List.take_append_drop]
      exact hs
    exact hsqrt _ _ ((List.pairwise_append.mp hpair).2.2 x hx y hydrop)
  · intro q
    refine ⟨((corpus.insertionSort nearLe).drop k).filter (fun x => x.sqdist == q), ?_⟩
    rw [← filter_insertionSort q corpus, hfind,
      ← List.filter_append, List.take_append_drop]

/-- C6 witness: the whole-corpus clause applied to a one-document corpus
with k = 5. -/
theorem c6_find_nearest_amended_witness :
    (find_nearest 5 c6_target [c6_witness_doc]).Perm
      ([c6_witness_doc].map (near_entry c6_target)) :=
  (c6_find_nearest_amended 5 c6_target [c6_witness_doc]).2.2.1 (by simp)

/-- C7: direct compliance for a regulation holds exactly when every
declared requirement key maps to a value equal to the entity's attribute
(a missing attribute reads as Python `None`); in particular the scenario-2
entity with `status = "inactive"` fails the requirement
`{status: "active"}`, and `_check_compliance` records `false` for it. -/
theorem c7_direct_compliance_iff :
    (∀ (e : Entity) (reg : Regulation),
        regulation_compliant e reg = true ↔
          ∀ kv ∈ reg.requirements, entity_get e kv.1 = kv.2)
    ∧ regulation_compliant [("id", .vStr "entity1"), ("status", .vStr "inactive")]
        ⟨"reg1", [("status", .vStr "active")]⟩ = false
    ∧ _check_compliance [("id", .vStr "entity1"), ("status", .vStr "inactive")]
        [⟨"reg1", [("status", .vStr "active")]⟩] = [("reg1", false)] := by
  refine ⟨?_, by decide, by decide⟩
  intro e reg
  simp [regulation_compliant, List.all_eq_true]

/-- C8: `map_to_coordinates` is total and pure: for every metadata dict
the pillar lies in [1, 5], the level in [1, 4], the branch in [0, 5]
(in fact in [0, 1]) and the expertise in [1, 5]; identical metadata gives
an identical coordinate, and unknown categorical values (unknown domain,
complexity, expertise, unparseable section) fall back to the mid-range
defaults (3, 2, 0.5, 3) instead of failing. -/
theorem c8_map_to_coordinates_ranges :
    ∀ m : Metadata,
      (1 ≤ (map_to_coordinates m).x ∧ (map_to_coordinates m).x ≤ 5)
      ∧ (1 ≤ (map_to_coordinates m).y ∧ (map_to_coordinates m).y ≤ 4)
      ∧ (0 ≤ (map_to_coordinates m).z ∧ (map_to_coordinates m).z ≤ 5)
      ∧ (1 ≤ (map_to_coordinates m).e ∧ (map_to_coordinates m).e ≤ 5)
      ∧ map_to_coordinates m = map_to_coordinates m
      ∧ map_to_coordinates ⟨some "quantum", some "unknown", some "x9y", some "novice"⟩ =
          ⟨3, 2, 1/2, 3⟩ := by
  intro m
  refine ⟨?_, ?_, ?_, ?_, rfl, ?_⟩
  · exact lookup_getD_bound pillar_map 1 5 3 (by norm_num)
      (by intro p hp; fin_cases hp <;> norm_num) _
  · exact lookup_getD_bound level_map 1 4 2 (by norm_num)
      (by intro p hp; fin_cases hp <;> norm_num) _
  · have hz : (map_to_coordinates m).z =
        match parseDecimal (m.«section».getD "1.0") with
        | some q => max 0 (min 1 (q / 10))
        | none => 1/2 := rfl
    rw [hz]
    rcases parseDecimal (m.«section».getD "1.0") with _ | q
    · norm_num
    · constructor
      · exact le_max_left 0 _
      · apply max_le (by norm_num)
        exact le_trans (min_le_left _ _) (by norm_num)
  · have := lookup_getD_bound level_map 1 4 3 (by norm_num)
      (by intro p hp; fin_cases hp <;> norm_num)
      (pyLower (m.expertise_required.getD "intermediate"))
    exact ⟨this.1, le_trans this.2 (by norm_num)⟩
  · norm_num [map_to_coordinates, show pyLower "quantum" = "quantum" from rfl,
      show pyLower "unknown" = "unknown" from rfl, show pyLower "novice" = "novice" from rfl,
      parseDecimal, show parseSigned ['x', '9', 'y'] = none from rfl,
      show pillar_map.lookup "quantum" = none from rfl,
      show level_map.lookup "unknown" = none from rfl,
      show level_map.lookup "novice" = none from rfl]

/-- C9: the 4D Euclidean distance computed by `find_nearest` (modelling the
float coordinates as reals) is a true metric: symmetric, zero exactly on
equal coordinates, and satisfying the triangle inequality. -/
theorem c9_distance_metric :
    ∀ a b c : Coordinates4D ℝ,
      dist4 a b = dist4 b a ∧ (dist4 a b = 0 ↔ a = b) ∧ dist4 a b ≤ dist4 a c + dist4 c b := by
  intro a b c
  refine ⟨?_, ?_, ?_⟩
  · rw [dist4_eq_dist, dist4_eq_dist, dist_comm]
  · rw [dist4_eq_dist, dist_eq_zero]
    exact ⟨fun h => toE_injective h, fun h => h ▸ rfl⟩
  · rw [dist4_eq_dist, dist4_eq_dist, dist4_eq_dist]
    exact dist_triangle _ _ _

/-- C10: comprehensive compliance keeps every direct value unchanged;
for a related regulation whose id is absent from the direct results (taking
the first related entry with that id), the inserted value is the
conjunction over its declared prerequisites with missing prerequisites
defaulting to `false` — in particular, an empty or missing `related_ids`
list yields `true` vacuously. -/
theorem c10_comprehensive_propagation :
    (∀ (initial : List (String × Bool)) (related : List RelReg) (id : String) (v : Bool),
        List.lookup id initial = some v →
        List.lookup id (_assess_comprehensive_compliance initial related) = some v)
    ∧ (∀ (initial : List (String × Bool)) (related : List RelReg) (reg : RelReg),
        related.find? (fun r => r.id == reg.id) = some reg →
        List.lookup reg.id initial = none →
        List.lookup reg.id (_assess_comprehensive_compliance initial related) =
          some (reg.related_ids.all (fun rid => (List.lookup rid initial).getD false)))
    ∧ (∀ (initial : List (String × Bool)) (related : List RelReg) (reg : RelReg),
        related.find? (fun r => r.id == reg.id) = some reg →
        List.lookup reg.id initial = none → reg.related_ids = [] →
        List.lookup reg.id (_assess_comprehensive_compliance initial related) = some true) := by
  refine ⟨?_, ?_, ?_⟩
  · intro initial related id v h
    exact assess_fold_keeps initial related initial id v h
  · intro initial related reg hfind hnone
    exact assess_fold_first initial related initial reg hfind hnone
  · intro initial related reg hfind hnone hemp
    have h := assess_fold_first initial related initial reg hfind hnone
    rwa [propagated_compliance, hemp] at h

/-- C10 witness: the three clauses applied to a concrete direct-results
dict and related list. -/
theorem c10_comprehensive_propagation_witness :
    List.lookup "a"
        (_assess_comprehensive_compliance [("a", true)] [⟨"b", []⟩, ⟨"c", ["missing"]⟩]) =
      some true
    ∧ List.lookup "b"
        (_assess_comprehensive_compliance [("a", true)] [⟨"b", []⟩, ⟨"c", ["missing"]⟩]) =
      some true
    ∧ List.lookup "c"
        (_assess_comprehensive_compliance [("a", true)] [⟨"b", []⟩, ⟨"c", ["missing"]⟩]) =
      some false :=
  ⟨c10_comprehensive_propagation.1 [("a", true)] [⟨"b", []⟩, ⟨"c", ["missing"]⟩] "a" true rfl,
   c10_comprehensive_propagation.2.2 [("a", true)] [⟨"b", []⟩, ⟨"c", ["missing"]⟩]
     ⟨"b", []⟩ rfl rfl rfl,
   c10_comprehensive_propagation.2.1 [("a", true)] [⟨"b", []⟩, ⟨"c", ["missing"]⟩]
     ⟨"c", ["missing"]⟩ rfl rfl⟩

end FourD
